import Mathlib

/-!
Verification development for the Figmatron request pipeline.

The TypeScript sources are shallowly embedded:
* `src/ui/agentPipeline.ts` (router, prompt assembler, vector-markup
  validator, structured-diagram validator, diagram renderer, repair logic);
* the response-dispatch and repair control flow of `runQuery` and the
  waiter-map handling of `src/ui/App.tsx`.

Modelling conventions:
* JavaScript strings are Lean `String`s; `s.length` is the character count.
* JavaScript numbers are modelled as `JsNum`, exact fractions
  (numerator/denominator pairs, kept unnormalized so every operation is
  structurally computable); `Math.round` is `jsRound` (floor of x + 1/2,
  which matches JS round-half-up including negatives).
* The browser collaborators (`DOMParser`, the Gemini transport, the SVG
  extraction regex) are external to the pipeline code and are passed in as
  explicit function parameters; `none` from the XML-parse parameter models
  a document containing a `parsererror` element.
* JavaScript truthiness tests on optional strings/numbers (`if (x)`,
  `x || default`) are modelled explicitly: `none` and the empty string /
  zero are falsy.
-/

/-- Is `p` a prefix of `l`? (Helper for JS `String.prototype.startsWith` /
`includes` modelling.) -/
def listHasPre {α : Type} [DecidableEq α] : List α → List α → Bool
  | [], _ => true
  | _ :: _, [] => false
  | a :: ps, b :: ls => a = b && listHasPre ps ls

/-- Does `pat` occur as a contiguous substring of `l`? -/
def listHasSub {α : Type} [DecidableEq α] (pat : List α) : List α → Bool
  | [] => listHasPre pat []
  | c :: cs => listHasPre pat (c :: cs) || listHasSub pat cs

/-- JS `haystack.includes(needle)`. -/
def strContains (s pat : String) : Bool :=
  listHasSub pat.data s.data

/-- JS `s.startsWith(pre)`. -/
def strStarts (s pre : String) : Bool :=
  listHasPre pre.data s.data

/-- JS `toLowerCase` (character-wise; the pipeline only lowercases ASCII).
Defined over the character list so that it evaluates inside the kernel. -/
def strLower (s : String) : String := String.mk (s.data.map Char.toLower)

/-- JS `toUpperCase` (character-wise). -/
def strUpper (s : String) : String := String.mk (s.data.map Char.toUpper)

/-- JS `array.join(sep)`. -/
def joinSep (sep : String) : List String → String
  | [] => ""
  | [x] => x
  | x :: xs => x ++ sep ++ joinSep sep xs

/-- `pat` occurs as a contiguous substring of `s` (propositional form). -/
def StrInfix (pat s : String) : Prop :=
  pat.data <:+: s.data

instance (pat s : String) : Decidable (StrInfix pat s) := by
  unfold StrInfix; infer_instance

/-- A JavaScript number, modelled as an exact fraction `num / den` with
`den` positive. Fractions are deliberately kept unnormalized so that every
arithmetic operation below is a plain structural computation. -/
structure JsNum where
  num : ℤ
  den : ℕ
deriving DecidableEq

instance (n : Nat) : OfNat JsNum n := ⟨⟨n, 1⟩⟩

instance : Add JsNum :=
  ⟨fun a b => ⟨a.num * b.den + b.num * a.den, a.den * b.den⟩⟩

instance : Sub JsNum :=
  ⟨fun a b => ⟨a.num * b.den - b.num * a.den, a.den * b.den⟩⟩

instance : Mul JsNum :=
  ⟨fun a b => ⟨a.num * b.num, a.den * b.den⟩⟩

instance : Div JsNum :=
  ⟨fun a b =>
    if b.num < 0 then ⟨-(a.num * b.den), a.den * b.num.natAbs⟩
    else ⟨a.num * b.den, a.den * b.num.natAbs⟩⟩

instance : LT JsNum :=
  ⟨fun a b => a.num * (b.den : ℤ) < b.num * (a.den : ℤ)⟩

instance : LE JsNum :=
  ⟨fun a b => a.num * (b.den : ℤ) ≤ b.num * (a.den : ℤ)⟩

instance (a b : JsNum) : Decidable (a < b) := by
  change Decidable (_ < _); infer_instance

instance (a b : JsNum) : Decidable (a ≤ b) := by
  change Decidable (_ ≤ _); infer_instance

instance : Max JsNum := ⟨fun a b => if a ≤ b then b else a⟩

instance : Min JsNum := ⟨fun a b => if a ≤ b then a else b⟩

/-- `Math.abs`. -/
def JsNum.abs (a : JsNum) : JsNum := ⟨a.num.natAbs, a.den⟩

/-- Embed an integer. -/
def JsNum.ofInt (n : ℤ) : JsNum := ⟨n, 1⟩

/-- JS numeric truthiness: `0` (any representation of zero) is falsy. -/
def JsNum.isZero (a : JsNum) : Bool := a.num = 0

/-- JS `Math.round`: round half toward positive infinity;
`round q = ⌊q + 1/2⌋` computed as a single floor division. -/
def jsRound (q : JsNum) : ℤ := Int.fdiv (2 * q.num + q.den) (2 * q.den)

/-- Decimal digits of the fractional remainder `rem/den` (long division),
with fuel; the renderer only ever formats terminating decimals in the
developments below. -/
def fracDigits : Nat → Nat → Nat → String
  | 0, _, _ => ""
  | _ + 1, 0, _ => ""
  | fuel + 1, rem, den =>
    let rem10 := rem * 10
    toString (rem10 / den) ++ fracDigits fuel (rem10 % den) den

/-- JS number-to-string conversion (`${x}`), for integers and terminating
decimals: integral values print with no decimal point, fractions print
their decimal expansion. -/
def jsNumStr (q : JsNum) : String :=
  let sign := if q.num < 0 then "-" else ""
  let n := q.num.natAbs
  let d := q.den
  if n % d = 0 then sign ++ toString (n / d)
  else sign ++ toString (n / d) ++ "." ++ fracDigits 20 (n % d) d

/-! ## Shared protocol types (`src/shared/protocol.ts`) -/

/-- `QueryMode` from the shared protocol. -/
inductive QueryMode
  | create
  | modify
  | ask
  | vectorize
deriving DecidableEq

/-- The lowercase wire string of a `QueryMode`. -/
def QueryMode.str : QueryMode → String
  | .create => "create"
  | .modify => "modify"
  | .ask => "ask"
  | .vectorize => "vectorize"

/-- `RouteMode` from the shared protocol. -/
inductive RouteMode
  | direct_svg
  | structured_ir
deriving DecidableEq

/-- `RouteOverride` from the shared protocol. -/
inductive RouteOverride
  | auto
  | direct_svg
  | structured_ir
deriving DecidableEq

/-- `ResponseMode` from the shared protocol. -/
inductive ResponseMode
  | text
  | svg
  | ir_json
deriving DecidableEq

/-- `SelectionInfo` from the shared protocol; optional fields are absent
(`none`) when the JS value is `undefined`. -/
structure SelectionInfo where
  count : Nat
  hasSelection : Bool
  primaryId : Option String := none
  primaryName : Option String := none
  primaryType : Option String := none
deriving DecidableEq

/-- `SelectionMetadata` from the shared protocol. -/
structure SelectionMetadata where
  id : String
  name : String
  type : String
  width : JsNum
  height : JsNum
  x : JsNum
  y : JsNum
  rotation : JsNum
  visible : Bool
  locked : Bool
  fillsCount : Nat
  strokesCount : Nat
deriving DecidableEq

/-- `ContextPacket` from the shared protocol (plus the `screenshotError`
field set by `code.ts`). -/
structure ContextPacket where
  svg : Option String := none
  metadata : Option SelectionMetadata := none
  screenshotPngBase64 : Option String := none
  screenshotError : Option String := none
  selectionInfo : SelectionInfo
deriving DecidableEq

/-- The `category` tag of a `ValidationReport`. -/
inductive ErrCategory
  | model
  | parse
  | validation
  | insert
  | canceled
deriving DecidableEq

/-- `ValidationReport` from the shared protocol. -/
structure ValidationReport where
  category : ErrCategory
  errors : List String
  warnings : List String
  repairable : Bool
deriving DecidableEq

/-! ## Router (`agentPipeline.ts`) -/

/-- The structural keyword list of `isStructuredTaskPrompt`. -/
def structuralKeywords : List String :=
  ["flowchart", "block diagram", "reflow", "orientation", "rotate"]

/-- The bypass keyword list of `isStructuredTaskPrompt`. -/
def bypassKeywords : List String :=
  ["circuit", "logic gate", "schematic", "schema", "detailed", "symbols"]

/-- `isStructuredTaskPrompt` from `agentPipeline.ts`: ask mode is never
structured; bypass keywords force `false`; otherwise any structural
keyword yields `true`. -/
def isStructuredTaskPrompt (prompt : String) (mode : QueryMode) : Bool :=
  if mode = .ask then false
  else
    let normalized := strLower prompt
    if bypassKeywords.any (fun keyword => strContains normalized keyword) then false
    else structuralKeywords.any (fun keyword => strContains normalized keyword)

/-- `chooseRoute` from `agentPipeline.ts`. -/
def chooseRoute (prompt : String) (mode : QueryMode) (routeOverride : RouteOverride) :
    RouteMode :=
  match routeOverride with
  | .direct_svg => .direct_svg
  | .structured_ir => .structured_ir
  | .auto =>
    if mode = .ask then .direct_svg
    else if mode = .vectorize then .direct_svg
    else if isStructuredTaskPrompt prompt mode then .structured_ir
    else .direct_svg

/-- `responseModeFor` from `agentPipeline.ts`. -/
def responseModeFor (mode : QueryMode) (route : RouteMode) : ResponseMode :=
  if mode = .ask then .text
  else if route = .structured_ir then .ir_json
  else .svg

/-! ## Prompt assembler (`agentPipeline.ts`) -/

/-- `MAX_PROMPT_SVG_CHARS` from `agentPipeline.ts`. -/
def MAX_PROMPT_SVG_CHARS : Nat := 120000

/-- `MAX_SVG_LENGTH` from `agentPipeline.ts`. -/
def MAX_SVG_LENGTH : Nat := 400000

/-- `MAX_SVG_NODE_COUNT` from `agentPipeline.ts`. -/
def MAX_SVG_NODE_COUNT : Nat := 5000

/-- `truncate` from `agentPipeline.ts`: values within the budget pass
through verbatim; longer values keep the first `maxChars` characters and
append the explicit truncation marker. -/
def truncate (value : String) (maxChars : Nat) : String :=
  if value.length ≤ maxChars then value
  else
    String.mk (value.data.take maxChars) ++ "\n...[TRUNCATED " ++
      toString (value.length - maxChars) ++ " CHARS]"

/-- JSON string escaping as performed by `JSON.stringify` (quote,
backslash, and newline are the cases that can arise here). -/
def jsonEscape (s : String) : String :=
  String.mk (s.data.flatMap fun c =>
    if c = '"' then ['\\', '"']
    else if c = '\\' then ['\\', '\\']
    else if c = '\n' then ['\\', 'n']
    else [c])

/-- One `"key": value` line of a pretty-printed JSON object. -/
def jsonField (key value : String) : String :=
  "\"" ++ key ++ "\": " ++ value

/-- `JSON.stringify(obj, null, 2)` layout for a flat object given its
present fields. -/
def jsonObject (fields : List String) : String :=
  "\x7b\n  " ++ joinSep ",\n  " fields ++ "\n\x7d"

/-- `JSON.stringify(selectionInfo, null, 2)`: optional fields that are
`undefined` are omitted. -/
def jsonOfSelectionInfo (si : SelectionInfo) : String :=
  jsonObject
    ([jsonField "count" (toString si.count),
      jsonField "hasSelection" (if si.hasSelection then "true" else "false")] ++
      (match si.primaryId with
        | some v => [jsonField "primaryId" ("\"" ++ jsonEscape v ++ "\"")]
        | none => []) ++
      (match si.primaryName with
        | some v => [jsonField "primaryName" ("\"" ++ jsonEscape v ++ "\"")]
        | none => []) ++
      (match si.primaryType with
        | some v => [jsonField "primaryType" ("\"" ++ jsonEscape v ++ "\"")]
        | none => []))

/-- `JSON.stringify(metadata, null, 2)` for `SelectionMetadata` (all
fields present). -/
def jsonOfSelectionMetadata (m : SelectionMetadata) : String :=
  jsonObject
    [jsonField "id" ("\"" ++ jsonEscape m.id ++ "\""),
     jsonField "name" ("\"" ++ jsonEscape m.name ++ "\""),
     jsonField "type" ("\"" ++ jsonEscape m.type ++ "\""),
     jsonField "width" (jsNumStr m.width),
     jsonField "height" (jsNumStr m.height),
     jsonField "x" (jsNumStr m.x),
     jsonField "y" (jsNumStr m.y),
     jsonField "rotation" (jsNumStr m.rotation),
     jsonField "visible" (if m.visible then "true" else "false"),
     jsonField "locked" (if m.locked then "true" else "false"),
     jsonField "fillsCount" (toString m.fillsCount),
     jsonField "strokesCount" (toString m.strokesCount)]

/-- The `SELECTED_CONTEXT_SVG` segment pushed by `buildPromptText` when
`context.svg` is truthy. -/
def contextSvgSegment (svg : String) : String :=
  "SELECTED_CONTEXT_SVG:\n```xml\n" ++ truncate svg MAX_PROMPT_SVG_CHARS ++ "\n```"

/-- `buildPromptText` from `agentPipeline.ts`. Segments are pushed in
source order and joined with a blank line. Note the source guards the
context-markup segment only on the truthiness of `context.svg`, not on
`mode`. -/
def buildPromptText (userPrompt : String) (mode : QueryMode) (route : RouteMode)
    (context : ContextPacket) (screenshotIncluded : Bool) : String :=
  let headerSegs :=
    ["MODE: " ++ strUpper mode.str,
     if route = .structured_ir then "RESPONSE_FORMAT: JSON_DIAGRAM_IR"
     else if mode = .ask then "RESPONSE_FORMAT: TEXT"
     else "RESPONSE_FORMAT: SVG",
     "USER_PROMPT:\n" ++ userPrompt,
     "SELECTION_SUMMARY: " ++ jsonOfSelectionInfo context.selectionInfo]
  let metadataSegs :=
    match context.metadata with
    | some m => ["PRIMARY_NODE_METADATA:\n" ++ jsonOfSelectionMetadata m]
    | none => []
  let svgSegs :=
    match context.svg with
    | some s => if s = "" then [] else [contextSvgSegment s]
    | none => []
  let screenshotSegs :=
    if screenshotIncluded then
      let estimatedBytes :=
        match context.screenshotPngBase64 with
        | some b => 3 * b.length / 4
        | none => 0
      ["SCREENSHOT_ATTACHED: " ++ toString estimatedBytes ++ " bytes"]
    else []
  joinSep "\n\n" (headerSegs ++ metadataSegs ++ svgSegs ++ screenshotSegs)

/-! ## Vector-markup validator (`agentPipeline.ts`) -/

/-- Case-insensitive prefix test on character lists (for the `/i` regex
flags in `sanitizeSvg`). -/
def ciHasPre : List Char → List Char → Bool
  | [], _ => true
  | _ :: _, [] => false
  | a :: ps, b :: ls => a.toLower = b.toLower && ciHasPre ps ls

/-- Drop everything up to and through the first occurrence of `close`;
`none` when `close` does not occur. -/
def dropThrough (close : List Char) : List Char → Option (List Char)
  | [] => none
  | c :: cs =>
    if listHasPre close (c :: cs) then some (List.drop close.length (c :: cs))
    else dropThrough close cs

/-- One global, case-insensitive, non-greedy removal pass, modelling
`str.replace(/OPEN[\s\S]*?CLOSE/gi, '')`: at each position, if the opening
pattern matches and a closing pattern occurs later, the whole span through
the first closing pattern is removed and scanning resumes after it. The
fuel argument only justifies termination; it starts at the input length
and every recursive call strictly shrinks the list. -/
def stripSpansGo (opening close : List Char) : Nat → List Char → List Char
  | 0, l => l
  | _ + 1, [] => []
  | fuel + 1, c :: cs =>
    if ciHasPre opening (c :: cs) then
      match dropThrough close (List.drop opening.length (c :: cs)) with
      | some rest => stripSpansGo opening close fuel rest
      | none => c :: stripSpansGo opening close fuel cs
    else c :: stripSpansGo opening close fuel cs

/-- `stripSpansGo` with enough fuel for its input. -/
def stripSpans (opening close : List Char) (l : List Char) : List Char :=
  stripSpansGo opening close l.length l

/-- JS `String.prototype.trim` (both ends, whitespace). -/
def jsTrim (s : String) : String :=
  String.mk ((s.data.dropWhile Char.isWhitespace).reverse.dropWhile
    Char.isWhitespace).reverse

/-- `sanitizeSvg` from `agentPipeline.ts`: strip a leading byte-order
marker, strip `<?xml ... ?>` prologs and `<!DOCTYPE ... >` declarations
(globally, case-insensitively), then trim. -/
def sanitizeSvg (svg : String) : String :=
  let noBom := if listHasPre ['﻿'] svg.data then svg.data.drop 1 else svg.data
  let noProlog := stripSpans "<?xml".data "?>".data noBom
  let noDoctype := stripSpans "<!DOCTYPE".data ">".data noProlog
  jsTrim (String.mk noDoctype)

/-- An XML attribute as exposed by the DOM (`attr.name` / `attr.value`). -/
structure XmlAttr where
  name : String
  value : String
deriving DecidableEq

/-- An XML element as exposed by the DOM: tag, attributes in document
order, child elements in document order. Text content is irrelevant to
the validator and is not modelled. -/
inductive XmlElem
  | mk (tag : String) (attrs : List XmlAttr) (children : List XmlElem)

/-- The tag of an element (`element.tagName`). -/
def XmlElem.tag : XmlElem → String
  | .mk t _ _ => t

/-- The attributes of an element (`element.attributes`). -/
def XmlElem.attrs : XmlElem → List XmlAttr
  | .mk _ a _ => a

/-- The child elements of an element. -/
def XmlElem.children : XmlElem → List XmlElem
  | .mk _ _ c => c

mutual

/-- All elements of the subtree rooted at `e`, in document order
(`doc.querySelectorAll('*')` when applied to the document element). -/
def allElements : XmlElem → List XmlElem
  | .mk t a cs => .mk t a cs :: allElementsList cs

/-- `allElements` over a forest. -/
def allElementsList : List XmlElem → List XmlElem
  | [] => []
  | e :: es => allElements e ++ allElementsList es

end

/-- `element.getAttribute(name)` coerced through JS truthiness: absent
attributes behave as the empty string (`!root.getAttribute(n)` is true
exactly when the result here is `""`). -/
def getAttrD (e : XmlElem) (name : String) : String :=
  ((e.attrs.find? (fun a => a.name = name)).map XmlAttr.value).getD ""

/-- The disallowed-tag list of `validateSvg`. -/
def disallowedTags : List String :=
  ["script", "foreignobject", "iframe", "object", "embed"]

/-- The error strings produced by the attribute loop of `validateSvg` for
one attribute: an external-reference error for absolute http(s) URLs on
href-like attributes, and an event-handler error for names starting with
"on". -/
def attrErrorsOfAttr (a : XmlAttr) : List String :=
  let attrName := strLower a.name
  let attrValue := strLower a.value
  (if (attrName = "href" || attrName = "xlink:href") &&
      (strStarts attrValue "http://" || strStarts attrValue "https://") then
    ["External href references are not allowed."]
  else []) ++
  (if strStarts attrName "on" then
    ["Event attribute \"" ++ a.name ++ "\" is not allowed."]
  else [])

/-- The attribute-loop errors of `validateSvg` over a list of elements in
document order. -/
def attrErrors (els : List XmlElem) : List String :=
  els.flatMap (fun e => e.attrs.flatMap attrErrorsOfAttr)

/-- The result of `validateSvg`: a validation report plus the sanitized
string. -/
structure SvgValidation where
  category : ErrCategory
  errors : List String
  warnings : List String
  repairable : Bool
  svg : String
deriving DecidableEq

/-- `validateSvg` from `agentPipeline.ts`. The browser's
`DOMParser.parseFromString(_, 'image/svg+xml')` is abstracted as the
`parseXml` parameter; `parseXml s = none` models a result document
containing a `parsererror` element, `some root` models a successful parse
with document element `root`. Error and warning strings are accumulated in
source push order. -/
def validateSvg (parseXml : String → Option XmlElem) (svgInput : String) :
    SvgValidation :=
  let sanitized := sanitizeSvg svgInput
  let emptyErrors := if sanitized = "" then ["SVG content is empty."] else []
  let lengthWarnings :=
    if MAX_SVG_LENGTH < sanitized.length then
      ["SVG length (" ++ toString sanitized.length ++ ") is very large."]
    else []
  match parseXml sanitized with
  | none =>
    { category := .parse
      errors := emptyErrors ++ ["SVG XML parse error."]
      warnings := lengthWarnings
      repairable := true
      svg := sanitized }
  | some root =>
    let rootErrors :=
      if strLower root.tag ≠ "svg" then ["Root element must be <svg>."] else []
    let viewBoxErrors :=
      if getAttrD root "viewBox" = "" then
        ["Missing required viewBox attribute on <svg>."]
      else []
    let badTags :=
      disallowedTags.filter (fun tag =>
        (allElements root).any (fun e => e.tag = tag))
    let tagErrors :=
      if badTags.isEmpty then []
      else ["Disallowed tags found: " ++ joinSep ", " badTags]
    let els := allElements root
    let countErrors :=
      if MAX_SVG_NODE_COUNT < els.length then
        ["SVG has too many nodes (" ++ toString els.length ++ ")."]
      else []
    let whWarnings :=
      if getAttrD root "width" = "" || getAttrD root "height" = "" then
        ["SVG width/height missing; relying on viewBox only."]
      else []
    let errors :=
      emptyErrors ++ rootErrors ++ viewBoxErrors ++ tagErrors ++ countErrors ++
        attrErrors els
    { category := .validation
      errors := errors
      warnings := lengthWarnings ++ whWarnings
      repairable := !errors.isEmpty
      svg := sanitized }

/-! ## Structured-diagram validator (`agentPipeline.ts`) -/

/-- Diagram node shape kinds from the shared protocol. -/
inductive NodeKind
  | block
  | decision
  | terminator
  | io
  | gate
  | text
deriving DecidableEq

/-- Edge side hints from the shared protocol. -/
inductive Side
  | top
  | right
  | bottom
  | left
deriving DecidableEq

/-- `DiagramNode` from the shared protocol. -/
structure DiagramNode where
  id : String
  kind : NodeKind
  label : String
  x : JsNum
  y : JsNum
  width : JsNum
  height : JsNum
deriving DecidableEq

/-- `DiagramEdge` from the shared protocol (`from`/`to` are renamed
`fromId`/`toId`, `from` being a Lean keyword). -/
structure DiagramEdge where
  id : String
  fromId : String
  toId : String
  fromSide : Option Side := none
  toSide : Option Side := none
  label : Option String := none
deriving DecidableEq

/-- Canvas description from the shared protocol. -/
structure DiagramCanvas where
  width : JsNum
  height : JsNum
  padding : Option JsNum := none
deriving DecidableEq

/-- Optional style overrides from the shared protocol. -/
structure DiagramStyles where
  stroke : Option String := none
  strokeWidth : Option JsNum := none
  fill : Option String := none
  textColor : Option String := none
  fontSize : Option JsNum := none
deriving DecidableEq

/-- `DiagramIR` from the shared protocol. The `kind` discriminator is kept
as a string because `validateDiagramIR` checks it against `"diagram"` on
untrusted parsed JSON. -/
structure DiagramIR where
  kind : String
  canvas : DiagramCanvas
  nodes : List DiagramNode
  edges : List DiagramEdge
  styles : Option DiagramStyles := none
deriving DecidableEq

/-- The node loop of `validateDiagramIR`: walks the node list accumulating
the id set and the error list. Nodes with a falsy id contribute a
missing-id error and are skipped; duplicate ids are reported; ids are
added to the set before the size check; non-positive width or height is
reported per node. Returns (ids seen, errors). -/
def collectNodeIdsAndErrors (nodes : List DiagramNode) :
    List String × List String :=
  nodes.foldl
    (fun acc node =>
      let ids := acc.1
      let errs := acc.2
      if node.id = "" then (ids, errs ++ ["Node is missing id."])
      else
        let errs :=
          if node.id ∈ ids then errs ++ ["Duplicate node id: " ++ node.id]
          else errs
        let ids := if node.id ∈ ids then ids else ids ++ [node.id]
        let errs :=
          if node.width ≤ 0 ∨ node.height ≤ 0 then
            errs ++ ["Node \"" ++ node.id ++ "\" has non-positive size."]
          else errs
        (ids, errs))
    ([], [])

/-- The edge loop of `validateDiagramIR`: each endpoint must be a known
node id. -/
def collectEdgeErrors (nodeIds : List String) (edges : List DiagramEdge) :
    List String :=
  edges.flatMap (fun edge =>
    (if edge.fromId ∈ nodeIds then []
     else ["Edge \"" ++ edge.id ++ "\" references missing from-node \"" ++
       edge.fromId ++ "\"."]) ++
    (if edge.toId ∈ nodeIds then []
     else ["Edge \"" ++ edge.id ++ "\" references missing to-node \"" ++
       edge.toId ++ "\"."]))

/-- `validateDiagramIR` from `agentPipeline.ts`. The checks on `diagram`
being an object and the node/edge fields being arrays cannot fail in the
typed embedding and contribute no errors here; everything else is
translated check for check, in source push order. -/
def validateDiagramIR (diagram : DiagramIR) : ValidationReport :=
  let kindErrors :=
    if diagram.kind ≠ "diagram" then ["Diagram IR kind must be \"diagram\"."]
    else []
  let canvasErrors :=
    if diagram.canvas.width ≤ 0 ∨ diagram.canvas.height ≤ 0 then
      ["Diagram canvas width and height must be positive."]
    else []
  let nodeListErrors :=
    if diagram.nodes.isEmpty then ["Diagram must contain at least one node."]
    else []
  let nodeScan := collectNodeIdsAndErrors diagram.nodes
  let edgeErrors := collectEdgeErrors nodeScan.1 diagram.edges
  let warnings :=
    if 100 < diagram.nodes.length then
      ["Large diagram node count may reduce readability."]
    else []
  let errors :=
    kindErrors ++ canvasErrors ++ nodeListErrors ++ nodeScan.2 ++ edgeErrors
  { category := .validation
    errors := errors
    warnings := warnings
    repairable := !errors.isEmpty }

/-! ## Diagram renderer (`agentPipeline.ts`) -/

/-- JS `opt || default` on an optional string: `undefined` and `""` fall
back to the default. -/
def orDefStr (o : Option String) (d : String) : String :=
  match o with
  | some s => if s = "" then d else s
  | none => d

/-- JS `opt || default` on an optional number: `undefined` and `0` fall
back to the default. -/
def orDefNum (o : Option JsNum) (d : JsNum) : JsNum :=
  match o with
  | some q => if q.isZero then d else q
  | none => d

/-- JS `str.replaceAll`-style single-character replacement (each global
`replace` in `escapeXml` rewrites one character class). -/
def replaceChar (c : Char) (r : List Char) (s : List Char) : List Char :=
  s.flatMap (fun x => if x = c then r else [x])

/-- `escapeXml` from `agentPipeline.ts`: the five sequential global
replaces; the `&` pass runs first, and no later pass introduces characters
a following pass would rewrite. -/
def escapeXml (value : String) : String :=
  String.mk
    (replaceChar '\'' "&apos;".data
      (replaceChar '"' "&quot;".data
        (replaceChar '>' "&gt;".data
          (replaceChar '<' "&lt;".data
            (replaceChar '&' "&amp;".data value.data)))))

/-- A 2-D point. -/
structure Pt where
  x : JsNum
  y : JsNum

/-- `sidePoint` from `agentPipeline.ts`. -/
def sidePoint (node : DiagramNode) (side : Side) : Pt :=
  match side with
  | .top => { x := node.x + node.width / 2, y := node.y }
  | .right => { x := node.x + node.width, y := node.y + node.height / 2 }
  | .bottom => { x := node.x + node.width / 2, y := node.y + node.height }
  | .left => { x := node.x, y := node.y + node.height / 2 }

/-- `inferSide` from `agentPipeline.ts`: the larger-magnitude
center-to-center axis wins, its sign picks the side. -/
def inferSide (fromNode toNode : DiagramNode) : Side :=
  let dx := toNode.x + toNode.width / 2 - (fromNode.x + fromNode.width / 2)
  let dy := toNode.y + toNode.height / 2 - (fromNode.y + fromNode.height / 2)
  if JsNum.abs dy < JsNum.abs dx then (if 0 < dx then .right else .left)
  else (if 0 < dy then .bottom else .top)


/-- Serialization of an attribute list as it appears in the renderer's
template literals: space-separated `name="value"` pairs. -/
def xmlAttrsStr (attrs : List XmlAttr) : String :=
  joinSep " " (attrs.map (fun a => a.name ++ "=\"" ++ a.value ++ "\""))

/-- A self-closing element exactly as the renderer's template literals
lay it out. -/
def xmlSelfClosed (tag : String) (attrs : List XmlAttr) : String :=
  "<" ++ tag ++ " " ++ xmlAttrsStr attrs ++ " />"

/-- A content-bearing element exactly as the renderer's template literals
lay it out. -/
def xmlWrapped (tag : String) (attrs : List XmlAttr) (content : String) : String :=
  "<" ++ tag ++ " " ++ xmlAttrsStr attrs ++ ">" ++ content ++ "</" ++ tag ++ ">"

/-- The attribute list of a decision node's diamond `<path>`. -/
def decisionAttrs (node : DiagramNode) (stroke fill : String) (strokeWidth : JsNum) :
    List XmlAttr :=
  let x1 := node.x + node.width / 2
  let y1 := node.y
  let x2 := node.x + node.width
  let y2 := node.y + node.height / 2
  let x3 := node.x + node.width / 2
  let y3 := node.y + node.height
  let x4 := node.x
  let y4 := node.y + node.height / 2
  [⟨"d", "M " ++ jsNumStr x1 ++ " " ++ jsNumStr y1 ++ " L " ++ jsNumStr x2 ++
      " " ++ jsNumStr y2 ++ " L " ++ jsNumStr x3 ++ " " ++ jsNumStr y3 ++
      " L " ++ jsNumStr x4 ++ " " ++ jsNumStr y4 ++ " Z"⟩,
   ⟨"fill", fill⟩, ⟨"stroke", stroke⟩, ⟨"stroke-width", jsNumStr strokeWidth⟩]

/-- The attribute list of a terminator node's `<ellipse>`. -/
def terminatorAttrs (node : DiagramNode) (stroke fill : String)
    (strokeWidth : JsNum) : List XmlAttr :=
  [⟨"cx", jsNumStr (node.x + node.width / 2)⟩,
   ⟨"cy", jsNumStr (node.y + node.height / 2)⟩,
   ⟨"rx", jsNumStr (node.width / 2)⟩,
   ⟨"ry", jsNumStr (node.height / 2)⟩,
   ⟨"fill", fill⟩, ⟨"stroke", stroke⟩, ⟨"stroke-width", jsNumStr strokeWidth⟩]

/-- The attribute list of an io node's `<polygon>` (parallelogram skewed
by `Math.max(8, Math.round(width * 0.12))`). -/
def ioAttrs (node : DiagramNode) (stroke fill : String) (strokeWidth : JsNum) :
    List XmlAttr :=
  let skew : JsNum := max 8 (JsNum.ofInt (jsRound (node.width * (12 / 100))))
  [⟨"points",
    jsNumStr (node.x + skew) ++ "," ++ jsNumStr node.y ++ " " ++
      jsNumStr (node.x + node.width) ++ "," ++ jsNumStr node.y ++ " " ++
      jsNumStr (node.x + node.width - skew) ++ "," ++
      jsNumStr (node.y + node.height) ++ " " ++ jsNumStr node.x ++ "," ++
      jsNumStr (node.y + node.height)⟩,
   ⟨"fill", fill⟩, ⟨"stroke", stroke⟩, ⟨"stroke-width", jsNumStr strokeWidth⟩]

/-- The attribute list of a gate or block node's rounded `<rect>` (gate
radius capped at half the height, blocks use 8). -/
def blockRectAttrs (node : DiagramNode) (stroke fill : String)
    (strokeWidth : JsNum) : List XmlAttr :=
  let radius : JsNum := if node.kind = .gate then min 18 (node.height / 2) else 8
  [⟨"x", jsNumStr node.x⟩, ⟨"y", jsNumStr node.y⟩,
   ⟨"width", jsNumStr node.width⟩, ⟨"height", jsNumStr node.height⟩,
   ⟨"rx", jsNumStr radius⟩, ⟨"ry", jsNumStr radius⟩,
   ⟨"fill", fill⟩, ⟨"stroke", stroke⟩, ⟨"stroke-width", jsNumStr strokeWidth⟩]

/-- `nodeShape` from `agentPipeline.ts`: the shape markup of one node
(empty for text nodes). -/
def nodeShape (node : DiagramNode) (stroke fill : String) (strokeWidth : JsNum) :
    String :=
  match node.kind with
  | .text => ""
  | .decision => xmlSelfClosed "path" (decisionAttrs node stroke fill strokeWidth)
  | .terminator =>
    xmlSelfClosed "ellipse" (terminatorAttrs node stroke fill strokeWidth)
  | .io => xmlSelfClosed "polygon" (ioAttrs node stroke fill strokeWidth)
  | _ => xmlSelfClosed "rect" (blockRectAttrs node stroke fill strokeWidth)

/-- `new Map(nodes.map(n => [n.id, n])).get(id)`: Map construction keeps
the last entry per key. -/
def nodesMapGet (nodes : List DiagramNode) (id : String) : Option DiagramNode :=
  nodes.reverse.find? (fun n => n.id = id)

/-- The connection geometry of one edge: resolved start/end points and the
rounded horizontal midline. -/
def edgeGeometry (fromNode toNode : DiagramNode) (edge : DiagramEdge) :
    Pt × Pt × ℤ :=
  let startSide := edge.fromSide.getD (inferSide fromNode toNode)
  let endSide := edge.toSide.getD (inferSide toNode fromNode)
  let start := sidePoint fromNode startSide
  let stop := sidePoint toNode endSide
  (start, stop, jsRound ((start.x + stop.x) / 2))

/-- The attribute list of one edge's orthogonal `<path>`. -/
def edgePathAttrs (start stop : Pt) (midX : ℤ) (stroke : String)
    (strokeWidth : JsNum) : List XmlAttr :=
  [⟨"d", "M " ++ jsNumStr start.x ++ " " ++ jsNumStr start.y ++ " L " ++
      toString midX ++ " " ++ jsNumStr start.y ++ " L " ++ toString midX ++
      " " ++ jsNumStr stop.y ++ " L " ++ jsNumStr stop.x ++ " " ++
      jsNumStr stop.y⟩,
   ⟨"fill", "none"⟩, ⟨"stroke", stroke⟩,
   ⟨"stroke-width", jsNumStr strokeWidth⟩,
   ⟨"stroke-linecap", "round"⟩, ⟨"stroke-linejoin", "round"⟩]

/-- The attribute list of one edge's optional label `<text>`. -/
def edgeLabelAttrs (start stop : Pt) (midX : ℤ) (textColor : String)
    (fontSize : JsNum) : List XmlAttr :=
  [⟨"x", toString midX⟩,
   ⟨"y", toString (jsRound ((start.y + stop.y) / 2) - 6)⟩,
   ⟨"text-anchor", "middle"⟩, ⟨"fill", textColor⟩,
   ⟨"font-size", jsNumStr (max (fontSize - 2) 10)⟩]

/-- The markup of one edge of the diagram (empty when an endpoint is
missing): an orthogonal two-bend path plus an optional centred label. -/
def edgeMarkup (nodes : List DiagramNode) (stroke textColor : String)
    (strokeWidth fontSize : JsNum) (edge : DiagramEdge) : String :=
  match nodesMapGet nodes edge.fromId, nodesMapGet nodes edge.toId with
  | some fromNode, some toNode =>
    let g := edgeGeometry fromNode toNode edge
    let label :=
      match edge.label with
      | some l =>
        if l = "" then ""
        else xmlWrapped "text" (edgeLabelAttrs g.1 g.2.1 g.2.2 textColor fontSize)
          (escapeXml l)
      | none => ""
    xmlSelfClosed "path" (edgePathAttrs g.1 g.2.1 g.2.2 stroke strokeWidth) ++
      label
  | _, _ => ""

/-- The attribute list of one node's centred label `<text>`. -/
def nodeTextAttrs (node : DiagramNode) (textColor : String) (fontSize : JsNum) :
    List XmlAttr :=
  [⟨"x", toString (jsRound (node.x + node.width / 2))⟩,
   ⟨"y", toString (jsRound (node.y + node.height / 2 + fontSize * (35 / 100)))⟩,
   ⟨"text-anchor", "middle"⟩, ⟨"fill", textColor⟩,
   ⟨"font-size", jsNumStr fontSize⟩,
   ⟨"font-family", "Inter, Helvetica, Arial, sans-serif"⟩]

/-- The markup of one node: its shape followed by its centred label. -/
def nodeMarkup (stroke fill textColor : String) (strokeWidth fontSize : JsNum)
    (node : DiagramNode) : String :=
  nodeShape node stroke fill strokeWidth ++
    xmlWrapped "text" (nodeTextAttrs node textColor fontSize)
      (escapeXml node.label)

/-- The root `<svg>` attribute list. -/
def svgRootAttrs (canvas : DiagramCanvas) : List XmlAttr :=
  [⟨"xmlns", "http://www.w3.org/2000/svg"⟩,
   ⟨"viewBox", "0 0 " ++ jsNumStr canvas.width ++ " " ++ jsNumStr canvas.height⟩,
   ⟨"width", jsNumStr canvas.width⟩, ⟨"height", jsNumStr canvas.height⟩]

/-- The full-canvas background `<rect>` attribute list. -/
def bgRectAttrs (canvas : DiagramCanvas) : List XmlAttr :=
  [⟨"x", "0"⟩, ⟨"y", "0"⟩, ⟨"width", jsNumStr canvas.width⟩,
   ⟨"height", jsNumStr canvas.height⟩, ⟨"fill", "white"⟩]

/-- The translated group's attribute list. -/
def gAttrs (padding : JsNum) : List XmlAttr :=
  [⟨"transform", "translate(" ++ jsNumStr padding ++ ", " ++
    jsNumStr padding ++ ")"⟩]

/-- `renderDiagramIrToSvg` from `agentPipeline.ts`: deterministic markup
generation with fixed style fallbacks. -/
def renderDiagramIrToSvg (diagram : DiagramIR) : String :=
  let stroke := orDefStr (diagram.styles.bind DiagramStyles.stroke) "#1f2937"
  let fill := orDefStr (diagram.styles.bind DiagramStyles.fill) "#ffffff"
  let textColor := orDefStr (diagram.styles.bind DiagramStyles.textColor) "#111827"
  let strokeWidth := orDefNum (diagram.styles.bind DiagramStyles.strokeWidth) 2
  let fontSize := orDefNum (diagram.styles.bind DiagramStyles.fontSize) 14
  let padding := orDefNum diagram.canvas.padding 24
  let edges :=
    joinSep "\n"
      (diagram.edges.map (edgeMarkup diagram.nodes stroke textColor strokeWidth fontSize))
  let nodes :=
    joinSep "\n"
      (diagram.nodes.map (nodeMarkup stroke fill textColor strokeWidth fontSize))
  "<svg " ++ xmlAttrsStr (svgRootAttrs diagram.canvas) ++ ">\n" ++
    xmlSelfClosed "rect" (bgRectAttrs diagram.canvas) ++ "\n<g " ++
    xmlAttrsStr (gAttrs padding) ++ ">\n" ++ edges ++ "\n" ++ nodes ++
    "\n</g>\n</svg>"

/-- The element list a standards-compliant XML parse of one rendered
node's markup yields: the shape (absent for text nodes) then the label
text element, with the same attribute lists the serializer embeds. -/
def nodeElems (stroke fill textColor : String) (strokeWidth fontSize : JsNum)
    (node : DiagramNode) : List XmlElem :=
  (match node.kind with
    | .text => []
    | .decision => [.mk "path" (decisionAttrs node stroke fill strokeWidth) []]
    | .terminator =>
      [.mk "ellipse" (terminatorAttrs node stroke fill strokeWidth) []]
    | .io => [.mk "polygon" (ioAttrs node stroke fill strokeWidth) []]
    | _ => [.mk "rect" (blockRectAttrs node stroke fill strokeWidth) []]) ++
  [.mk "text" (nodeTextAttrs node textColor fontSize) []]

/-- The element list a standards-compliant XML parse of one rendered
edge's markup yields. -/
def edgeElems (nodes : List DiagramNode) (stroke textColor : String)
    (strokeWidth fontSize : JsNum) (edge : DiagramEdge) : List XmlElem :=
  match nodesMapGet nodes edge.fromId, nodesMapGet nodes edge.toId with
  | some fromNode, some toNode =>
    let g := edgeGeometry fromNode toNode edge
    [.mk "path" (edgePathAttrs g.1 g.2.1 g.2.2 stroke strokeWidth) []] ++
      (match edge.label with
        | some l =>
          if l = "" then []
          else [.mk "text" (edgeLabelAttrs g.1 g.2.1 g.2.2 textColor fontSize) []]
        | none => [])
  | _, _ => []

/-- The element tree a standards-compliant XML parse of
`renderDiagramIrToSvg diagram` yields, provided the embedded style strings
and labels do not escape their quoted/escaped positions: the root `svg`
with the background rectangle and the translated group holding edge then
node elements in document order. -/
def docOfDiagram (diagram : DiagramIR) : XmlElem :=
  let stroke := orDefStr (diagram.styles.bind DiagramStyles.stroke) "#1f2937"
  let fill := orDefStr (diagram.styles.bind DiagramStyles.fill) "#ffffff"
  let textColor := orDefStr (diagram.styles.bind DiagramStyles.textColor) "#111827"
  let strokeWidth := orDefNum (diagram.styles.bind DiagramStyles.strokeWidth) 2
  let fontSize := orDefNum (diagram.styles.bind DiagramStyles.fontSize) 14
  let padding := orDefNum diagram.canvas.padding 24
  .mk "svg" (svgRootAttrs diagram.canvas)
    [.mk "rect" (bgRectAttrs diagram.canvas) [],
     .mk "g" (gAttrs padding)
       (diagram.edges.flatMap
          (edgeElems diagram.nodes stroke textColor strokeWidth fontSize) ++
        diagram.nodes.flatMap
          (nodeElems stroke fill textColor strokeWidth fontSize))]

/-! ## Orchestrator response dispatch (`App.tsx`, `runQuery`) -/

/-- Terminal outcome of one `runQuery` attempt after the model call:
success, or a `PipelineError` with its category. -/
inductive RunOutcome
  | success
  | failed (category : ErrCategory)
deriving DecidableEq

/-- Insertion result after a repairable-branch success: mirrors
`requestInsertion` resolving `{success, error?}`. -/
def finishInsertion (insertOk : Bool) : RunOutcome :=
  if insertOk then .success else .failed .insert

/-- The response-dispatch and repair control flow of `runQuery`
(`App.tsx`), starting after the initial model call. External collaborators
are parameters: `extractSvg` is `extractSvgFromResponse` (a regex over the
model text), `parseXml` is the DOM parser used by `validateSvg`,
`repairResp` is the text the single repair-time model call would return,
`diagramResult` is the outcome of `parseDiagramIR` (`none` models its
thrown error, normalized to a model-category failure by the top-level
catch), and `insertOk` the host's insertion reply. Returns the terminal
outcome and the number of repair model-calls made. -/
def runQueryResponse (extractSvg : String → Option String)
    (parseXml : String → Option XmlElem) (responseMode : ResponseMode)
    (initialResponse repairResp : String)
    (diagramResult : Option DiagramIR) (forceRepair insertOk : Bool) :
    RunOutcome × Nat :=
  match responseMode with
  | .text => (.success, 0)
  | .ir_json =>
    match diagramResult with
    | none => (.failed .model, 0)
    | some diagram =>
      let diagramValidation := validateDiagramIR diagram
      if !diagramValidation.errors.isEmpty then (.failed .validation, 0)
      else
        let svgValidation := validateSvg parseXml (renderDiagramIrToSvg diagram)
        if !svgValidation.errors.isEmpty then (.failed .validation, 0)
        else (finishInsertion insertOk, 0)
  | .svg =>
    match extractSvg initialResponse with
    | none => (.failed .parse, 0)
    | some svg =>
      let validationReport := validateSvg parseXml svg
      if (forceRepair || !validationReport.errors.isEmpty) &&
          validationReport.repairable then
        match extractSvg repairResp with
        | none => (.failed .parse, 1)
        | some repairedSvg =>
          let repairedReport := validateSvg parseXml repairedSvg
          if !repairedReport.errors.isEmpty then (.failed .validation, 1)
          else (finishInsertion insertOk, 1)
      else
        if !validationReport.errors.isEmpty then (.failed .validation, 0)
        else (finishInsertion insertOk, 0)

/-! ## Waiter maps (`App.tsx`, `requestContext` / `requestInsertion` /
`handleMessage`) -/

/-- The id-keyed pending-waiter maps: context waiters and insertion
waiters. Only key presence is relevant to settlement behaviour, so each
map is its key set (a duplicate-free list in practice; `Map.set` and
`Map.delete` semantics are modelled exactly). -/
structure WaiterState where
  ctx : List String
  ins : List String
deriving DecidableEq

/-- `Map.set(id, waiter)` on a key-set view: adding a present key
overwrites its value and leaves the key set unchanged. -/
def mapSet (m : List String) (id : String) : List String :=
  if id ∈ m then m else id :: m

/-- `Map.delete(id)` on a key-set view. -/
def mapDelete (m : List String) (id : String) : List String :=
  m.filter (fun x => x ≠ id)

/-- An observable settlement of a waiter: the promise resolving or
rejecting (timeout and cancel reject, replies resolve). -/
inductive WaiterAction
  | ctxResolved (id : String)
  | ctxRejected (id : String)
  | insResolved (id : String)
  | insRejected (id : String)
deriving DecidableEq

/-- The events that touch the waiter maps: posting a request
(`requestContext` / `requestInsertion` inserting their entry), the
host replies handled by `handleMessage` (`context-ready`,
`insert-result`, `request-canceled`), and the `setTimeout` callbacks.
A timeout event can only fire while its entry is pending, because the
timer is cleared exactly when the entry is removed by a reply or a
cancellation; the guard below encodes that. -/
inductive UiEvent
  | postContext (id : String)
  | postInsert (id : String)
  | contextReady (id : String)
  | insertResult (id : String)
  | requestCanceled (id : String)
  | contextTimeout (id : String)
  | insertTimeout (id : String)

/-- One step of the waiter-map state machine of `App.tsx`, returning the
new state and the settlements performed. Replies for unknown ids return at
once without touching either map; `request-canceled` settles whichever of
the two entries exist. -/
def uiStep (s : WaiterState) (e : UiEvent) : WaiterState × List WaiterAction :=
  match e with
  | .postContext id => ({ s with ctx := mapSet s.ctx id }, [])
  | .postInsert id => ({ s with ins := mapSet s.ins id }, [])
  | .contextReady id =>
    if id ∈ s.ctx then
      ({ s with ctx := mapDelete s.ctx id }, [.ctxResolved id])
    else (s, [])
  | .insertResult id =>
    if id ∈ s.ins then
      ({ s with ins := mapDelete s.ins id }, [.insResolved id])
    else (s, [])
  | .requestCanceled id =>
    let ctxPart :=
      if id ∈ s.ctx then (mapDelete s.ctx id, [WaiterAction.ctxRejected id])
      else (s.ctx, [])
    let insPart :=
      if id ∈ s.ins then (mapDelete s.ins id, [WaiterAction.insRejected id])
      else (s.ins, [])
    (⟨ctxPart.1, insPart.1⟩, ctxPart.2 ++ insPart.2)
  | .contextTimeout id =>
    if id ∈ s.ctx then
      ({ s with ctx := mapDelete s.ctx id }, [.ctxRejected id])
    else (s, [])
  | .insertTimeout id =>
    if id ∈ s.ins then
      ({ s with ins := mapDelete s.ins id }, [.insRejected id])
    else (s, [])

/-! ## Verification helpers and concrete instances -/

/-- An attribute name that triggers neither the external-reference check
nor the event-handler check of `validateSvg`'s attribute loop. -/
def safeNameB (n : String) : Bool :=
  !(strLower n = "href" || strLower n = "xlink:href" ||
    strStarts (strLower n) "on")

/-- Every attribute in the list is inert for `validateSvg`'s attribute
loop. -/
def attrsClean (l : List XmlAttr) : Prop :=
  ∀ a ∈ l, attrErrorsOfAttr a = []

/-- The tags the renderer gives to childless (leaf) elements. -/
def leafTagOk (t : String) : Prop :=
  t ∈ (["path", "text", "polygon", "ellipse", "rect"] : List String)

/-- The tags occurring anywhere in a rendered document. -/
def renderedTagOk (t : String) : Prop :=
  t ∈ (["svg", "rect", "g", "path", "text", "polygon", "ellipse"] : List String)

/-- The context packet of the repository's own `buildPromptText` tests: a
one-item selection with a present, non-empty context-markup snapshot. -/
def svgTestContext : ContextPacket :=
  { svg := some "<svg><rect width=\"10\" height=\"10\"/></svg>"
    selectionInfo := { count := 1, hasSelection := true } }

/-- The overlapping-nodes diagram of the repository's own
`validateDiagramIR` test: nodes "1" (100,100,100,50) and "2"
(150,120,100,50) on a 500×500 canvas, whose bounding boxes overlap. -/
def overlapDiagram : DiagramIR :=
  { kind := "diagram"
    canvas := { width := 500, height := 500, padding := some 20 }
    nodes :=
      [{ id := "1", kind := .block, label := "A", x := 100, y := 100,
         width := 100, height := 50 },
       { id := "2", kind := .block, label := "B", x := 150, y := 120,
         width := 100, height := 50 }]
    edges := [] }

/-- Two non-overlapping nodes with no edges (two connected components),
from the repository's own `validateDiagramIR` test. -/
def disconnectedDiagram : DiagramIR :=
  { kind := "diagram"
    canvas := { width := 500, height := 500, padding := some 20 }
    nodes :=
      [{ id := "1", kind := .block, label := "A", x := 10, y := 10,
         width := 100, height := 50 },
       { id := "2", kind := .block, label := "B", x := 200, y := 10,
         width := 100, height := 50 }]
    edges := [] }

/-- The same two nodes joined by one edge. -/
def connectedDiagram : DiagramIR :=
  { kind := "diagram"
    canvas := { width := 500, height := 500, padding := some 20 }
    nodes :=
      [{ id := "1", kind := .block, label := "A", x := 10, y := 10,
         width := 100, height := 50 },
       { id := "2", kind := .block, label := "B", x := 200, y := 10,
         width := 100, height := 50 }]
    edges := [{ id := "e1", fromId := "1", toId := "2" }] }

/-- A structurally valid diagram whose stroke style override smuggles an
event attribute into the rendered markup: the renderer embeds style
strings into attribute positions without escaping, so the value
`" onclick="x` closes the `stroke` attribute and opens an `onclick`
attribute. -/
def injectionDiagram : DiagramIR :=
  { kind := "diagram"
    canvas := { width := 100, height := 100 }
    nodes :=
      [{ id := "1", kind := .block, label := "A", x := 10, y := 10,
         width := 20, height := 10 }]
    edges := []
    styles := some { stroke := some "\" onclick=\"x" } }

/-- The element tree a standards-compliant XML parser (the browser's
`DOMParser`) produces for `renderDiagramIrToSvg injectionDiagram`: the
node rectangle carries `stroke=""` and `onclick="x"` as separate
attributes because the unescaped style string closed the quoted value. -/
def injectionDoc : XmlElem :=
  .mk "svg"
    [⟨"xmlns", "http://www.w3.org/2000/svg"⟩, ⟨"viewBox", "0 0 100 100"⟩,
     ⟨"width", "100"⟩, ⟨"height", "100"⟩]
    [.mk "rect"
      [⟨"x", "0"⟩, ⟨"y", "0"⟩, ⟨"width", "100"⟩, ⟨"height", "100"⟩,
       ⟨"fill", "white"⟩] [],
     .mk "g" [⟨"transform", "translate(24, 24)"⟩]
       [.mk "rect"
          [⟨"x", "10"⟩, ⟨"y", "10"⟩, ⟨"width", "20"⟩, ⟨"height", "10"⟩,
           ⟨"rx", "8"⟩, ⟨"ry", "8"⟩, ⟨"fill", "#ffffff"⟩, ⟨"stroke", ""⟩,
           ⟨"onclick", "x"⟩, ⟨"stroke-width", "2"⟩] [],
        .mk "text"
          [⟨"x", "20"⟩, ⟨"y", "20"⟩, ⟨"text-anchor", "middle"⟩,
           ⟨"fill", "#111827"⟩, ⟨"font-size", "14"⟩,
           ⟨"font-family", "Inter, Helvetica, Arial, sans-serif"⟩] []]]

/-- A parse oracle agreeing with `DOMParser` on the one rendered string
the C10 counterexample exercises. -/
def injectionParse (s : String) : Option XmlElem :=
  if s = sanitizeSvg (renderDiagramIrToSvg injectionDiagram) then
    some injectionDoc
  else none

/-- A small well-behaved diagram (one block node, default styles) used to
witness the amended round-trip theorem. -/
def renderDemoDiagram : DiagramIR :=
  { kind := "diagram"
    canvas := { width := 100, height := 100 }
    nodes :=
      [{ id := "1", kind := .block, label := "A", x := 10, y := 10,
         width := 20, height := 10 }]
    edges := [] }

/-- A parse oracle agreeing with `DOMParser` on `renderDemoDiagram`'s
rendered markup. -/
def renderDemoParse (s : String) : Option XmlElem :=
  if s = sanitizeSvg (renderDiagramIrToSvg renderDemoDiagram) then
    some (docOfDiagram renderDemoDiagram)
  else none

/-- A 120001-character context-markup string, one character over the
embedding budget. -/
def oversizedSvg : String := String.mk (List.replicate 120001 'a')

/-- A context packet carrying `oversizedSvg`. -/
def oversizedContext : ContextPacket :=
  { svg := some oversizedSvg
    selectionInfo := { count := 1, hasSelection := true } }

/-! ## Helper lemmas -/

theorem strInfix_appendRight {a t : String} (s : String) (h : StrInfix a t) :
    StrInfix a (s ++ t) := by
  obtain ⟨u, v, huv⟩ := h
  exact ⟨s.data ++ u, v, by rw [String.data_append, ← huv]; simp⟩

theorem strInfix_of_isPre {a t : String} (h : a.data <+: t.data) :
    StrInfix a t := by
  obtain ⟨v, hv⟩ := h
  exact ⟨[], v, by simpa using hv⟩

theorem strInfix_joinSep (sep : String) :
    ∀ (l : List String) (a : String), a ∈ l → StrInfix a (joinSep sep l) := by
  intro l
  induction l with
  | nil => intro a h; cases h
  | cons x xs ih =>
    intro a h
    cases xs with
    | nil =>
      have : a = x := by simpa using h
      subst this
      exact ⟨[], [], by simp [joinSep]⟩
    | cons y ys =>
      rcases List.mem_cons.mp h with hx | hmem
      · subst hx
        show StrInfix a (a ++ sep ++ joinSep sep (y :: ys))
        refine strInfix_of_isPre ⟨sep.data ++ (joinSep sep (y :: ys)).data, ?_⟩
        simp [String.data_append]
      · have htail := ih a hmem
        show StrInfix a (x ++ sep ++ joinSep sep (y :: ys))
        exact strInfix_appendRight _ htail

theorem contextSvgSegment_in_prompt (userPrompt : String) (mode : QueryMode)
    (route : RouteMode) (context : ContextPacket) (screenshotIncluded : Bool)
    (s : String) (hsvg : context.svg = some s) (hne : s ≠ "") :
    StrInfix (contextSvgSegment s)
      (buildPromptText userPrompt mode route context screenshotIncluded) := by
  unfold buildPromptText
  apply strInfix_joinSep
  simp [hsvg, hne]

/-! ## Claim theorems -/

set_option maxRecDepth 2000000

/-- C1. The claim states `buildPromptText` with mode `vectorize` never
emits the `SELECTED_CONTEXT_SVG` section even when the context packet
carries markup. The source has no mode guard on that section — the guard
lives upstream in `code.ts`, which skips exporting the selection markup in
vectorize mode — so calling `buildPromptText` itself with a populated
context packet and mode `vectorize` does embed the marker, contradicting
the claim, the repository's own vitest case "omits SVG context in
vectorize mode", and DEVELOPING.md. This theorem evaluates the embedded
code at the failing input (and confirms the claim's true half: mode
`modify` embeds the marker). -/
theorem buildPromptText_vectorize_embeds_marker :
    StrInfix "SELECTED_CONTEXT_SVG"
      (buildPromptText "Vectorize this" .vectorize .direct_svg svgTestContext
        false) ∧
    StrInfix "SELECTED_CONTEXT_SVG"
      (buildPromptText "Modify this" .modify .direct_svg svgTestContext
        false) := by
  decide

/-- C2. The claim (backed by the repository's own vitest case "catches
overlapping nodes" and by DEVELOPING.md) requires `validateDiagramIR` to
record a blocking error naming both ids of any overlapping node pair. The
embedded source translation shows the validator performs no geometric
overlap check at all: on the claim's own concrete input the error list is
empty, so in particular the required overlap message is absent. -/
theorem validateDiagramIR_misses_overlap :
    (validateDiagramIR overlapDiagram).errors = [] ∧
    "Nodes \"1\" and \"2\" overlap, which breaks readability." ∉
      (validateDiagramIR overlapDiagram).errors := by
  have h : (validateDiagramIR overlapDiagram).errors = [] := by decide
  exact ⟨h, by rw [h]; exact List.not_mem_nil _⟩

/-- C3. The claim (backed by the repository's own vitest case "catches
unconnected components" and by DEVELOPING.md) requires a non-blocking
warning when the node set splits into several connected components. The
embedded source translation shows the validator performs no connectivity
analysis: the disconnected pair yields no warnings at all (and no errors),
while the claim's true half — the edge-joined pair yields zero errors and
zero warnings — does hold. -/
theorem validateDiagramIR_misses_connectivity :
    (validateDiagramIR disconnectedDiagram).warnings = [] ∧
    (validateDiagramIR disconnectedDiagram).errors = [] ∧
    (validateDiagramIR connectedDiagram).errors = [] ∧
    (validateDiagramIR connectedDiagram).warnings = [] := by
  decide

/-- C6. Bypass keywords take precedence: whenever the lowercased prompt
contains one of the bypass keywords, `chooseRoute` with override `auto`
and mode `create` or `modify` resolves to the direct-markup route, no
matter which structural keywords also occur. -/
theorem chooseRoute_bypass_precedence (prompt : String) (mode : QueryMode)
    (hmode : mode = .create ∨ mode = .modify)
    (hbypass : bypassKeywords.any
      (fun keyword => strContains (strLower prompt) keyword) = true) :
    chooseRoute prompt mode .auto = .direct_svg := by
  have hstruct : isStructuredTaskPrompt prompt mode = false := by
    unfold isStructuredTaskPrompt
    rcases hmode with h | h <;> subst h <;> simp [hbypass]
  unfold chooseRoute
  rcases hmode with h | h <;> subst h <;> simp [hstruct]

/-- Witness for C6 at the claim's concrete input: "flowchart of a circuit"
contains the structural keyword "flowchart" and the bypass keyword
"circuit", and routes direct-markup. -/
theorem chooseRoute_bypass_precedence_witness :
    chooseRoute "flowchart of a circuit" .create .auto = .direct_svg :=
  chooseRoute_bypass_precedence "flowchart of a circuit" .create (Or.inl rfl)
    (by decide)

/-- C5 (amended). Whenever the XML parse of the sanitized input fails,
`validateSvg` returns early with category `parse`, `repairable = true`,
the sanitized-but-unparsed string, and an error list consisting of the
parse error alone when the sanitized string is non-empty — but preceded by
the emptiness error when sanitization left nothing, so the error is not
always single. -/
theorem validateSvg_parse_failure (parseXml : String → Option XmlElem)
    (s : String) (hfail : parseXml (sanitizeSvg s) = none) :
    (validateSvg parseXml s).errors =
      (if sanitizeSvg s = "" then ["SVG content is empty."] else []) ++
        ["SVG XML parse error."] ∧
    (validateSvg parseXml s).category = .parse ∧
    (validateSvg parseXml s).repairable = true ∧
    (validateSvg parseXml s).svg = sanitizeSvg s := by
  simp [validateSvg, hfail]

/-- Counterexample for C5 as stated: the empty input sanitizes to the
empty string, on which any XML parser fails (`DOMParser` yields a
`parsererror` document for empty input), and `validateSvg` then reports
two errors — the emptiness error before the parse error — not a single
"XML parse error". -/
theorem validateSvg_parse_failure_counterexample :
    (validateSvg (fun _ => none) "").errors =
      ["SVG content is empty.", "SVG XML parse error."] := by
  decide

/-- Witness for the amended C5 on the non-empty unparsable input "x"
(plain text; no XML parser accepts it): single parse error, category
`parse`, repairable, sanitized string returned. -/
theorem validateSvg_parse_failure_witness :
    (validateSvg (fun _ => none) "x").errors = ["SVG XML parse error."] ∧
    (validateSvg (fun _ => none) "x").category = .parse ∧
    (validateSvg (fun _ => none) "x").repairable = true ∧
    (validateSvg (fun _ => none) "x").svg = "x" := by
  have h := validateSvg_parse_failure (fun _ => none) "x" rfl
  have hs : sanitizeSvg "x" = "x" := by decide
  rw [hs] at h
  rw [if_neg (by decide : ¬("x" : String) = "")] at h
  simpa using h

/-- C7. On every successfully parsed input, a missing (or empty, which JS
truthiness conflates with missing) `viewBox` attribute on the root is a
blocking error; a missing `width` or `height` attribute contributes the
non-blocking warning, and — with every other check passing — leaves the
error list empty, so it is never an error. -/
theorem validateSvg_viewBox_vs_wh (parseXml : String → Option XmlElem)
    (s : String) (d : XmlElem)
    (hparse : parseXml (sanitizeSvg s) = some d) :
    (getAttrD d "viewBox" = "" →
      "Missing required viewBox attribute on <svg>." ∈
        (validateSvg parseXml s).errors) ∧
    ((getAttrD d "width" = "" ∨ getAttrD d "height" = "") →
      "SVG width/height missing; relying on viewBox only." ∈
        (validateSvg parseXml s).warnings) ∧
    (sanitizeSvg s ≠ "" → strLower d.tag = "svg" → getAttrD d "viewBox" ≠ "" →
      disallowedTags.filter
        (fun tag => (allElements d).any (fun e => e.tag = tag)) = [] →
      (allElements d).length ≤ MAX_SVG_NODE_COUNT →
      attrErrors (allElements d) = [] →
      (validateSvg parseXml s).errors = []) := by
  refine ⟨?_, ?_, ?_⟩
  · intro hvb
    simp [validateSvg, hparse, hvb]
  · intro hwh
    rcases hwh with h | h <;> simp [validateSvg, hparse, h]
  · intro hne htag hvb hfilter hcount hattr
    have hnotlt : ¬(MAX_SVG_NODE_COUNT < (allElements d).length) :=
      Nat.not_lt.mpr hcount
    simp [validateSvg, hparse, hne, htag, hvb, hfilter, hnotlt, hattr]

/-- Witness for C7: a minimal parsed root with `viewBox` but no
width/height yields the warning and a clean error list; a root without
`viewBox` yields the blocking error. -/
theorem validateSvg_viewBox_vs_wh_witness :
    ("SVG width/height missing; relying on viewBox only." ∈
      (validateSvg
        (fun _ => some (.mk "svg" [⟨"viewBox", "0 0 10 10"⟩] []))
        "<svg viewBox=\"0 0 10 10\"></svg>").warnings ∧
     (validateSvg
        (fun _ => some (.mk "svg" [⟨"viewBox", "0 0 10 10"⟩] []))
        "<svg viewBox=\"0 0 10 10\"></svg>").errors = []) ∧
    "Missing required viewBox attribute on <svg>." ∈
      (validateSvg (fun _ => some (.mk "svg" [] [])) "<svg></svg>").errors := by
  have h1 := validateSvg_viewBox_vs_wh
    (fun _ => some (.mk "svg" [⟨"viewBox", "0 0 10 10"⟩] []))
    "<svg viewBox=\"0 0 10 10\"></svg>" (.mk "svg" [⟨"viewBox", "0 0 10 10"⟩] [])
    rfl
  have h2 := validateSvg_viewBox_vs_wh (fun _ => some (.mk "svg" [] []))
    "<svg></svg>" (.mk "svg" [] []) rfl
  refine ⟨⟨h1.2.1 (Or.inl (by decide)), ?_⟩, h2.1 (by decide)⟩
  exact h1.2.2 (by decide) (by decide) (by decide) (by decide) (by decide)
    (by decide)

/-- C8. Whenever the context packet carries non-empty markup, the built
prompt embeds the `SELECTED_CONTEXT_SVG` segment built from
`truncate svg MAX_PROMPT_SVG_CHARS`; within the budget the markup is
embedded verbatim (no marker), over the budget exactly the first
`MAX_PROMPT_SVG_CHARS` characters are kept and the explicit
"[TRUNCATED n CHARS]" marker (n = number of characters removed) is
appended. -/
theorem buildPromptText_truncation (userPrompt : String) (mode : QueryMode)
    (route : RouteMode) (context : ContextPacket) (screenshotIncluded : Bool)
    (s : String) (hsvg : context.svg = some s) (hne : s ≠ "") :
    StrInfix (contextSvgSegment s)
      (buildPromptText userPrompt mode route context screenshotIncluded) ∧
    (s.length ≤ MAX_PROMPT_SVG_CHARS → truncate s MAX_PROMPT_SVG_CHARS = s) ∧
    (MAX_PROMPT_SVG_CHARS < s.length →
      truncate s MAX_PROMPT_SVG_CHARS =
        String.mk (s.data.take MAX_PROMPT_SVG_CHARS) ++ "\n...[TRUNCATED " ++
          toString (s.length - MAX_PROMPT_SVG_CHARS) ++ " CHARS]" ∧
      (String.mk (s.data.take MAX_PROMPT_SVG_CHARS)).length =
        MAX_PROMPT_SVG_CHARS) := by
  refine ⟨contextSvgSegment_in_prompt userPrompt mode route context
    screenshotIncluded s hsvg hne, ?_, ?_⟩
  · intro h
    unfold truncate
    rw [if_pos h]
  · intro h
    constructor
    · unfold truncate
      rw [if_neg (by omega)]
    · rw [String.length_mk, List.length_take]
      have : s.length = s.data.length := rfl
      omega

/-- Witness for C8 at a context-markup string one character over budget:
the embedded segment keeps exactly 120000 characters and appends
"[TRUNCATED 1 CHARS]". -/
theorem buildPromptText_truncation_witness :
    StrInfix (contextSvgSegment oversizedSvg)
      (buildPromptText "p" .modify .direct_svg oversizedContext false) ∧
    truncate oversizedSvg MAX_PROMPT_SVG_CHARS =
      String.mk (List.replicate 120000 'a') ++ "\n...[TRUNCATED 1 CHARS]" := by
  have hdata : oversizedSvg.data = List.replicate 120001 'a' := rfl
  have hlen : oversizedSvg.length = 120001 := by
    show (String.mk (List.replicate 120001 'a')).length = 120001
    rw [String.length_mk, List.length_replicate]
  have hne : oversizedSvg ≠ "" := by
    intro h
    have h2 := congrArg String.length h
    rw [hlen, String.length_empty] at h2
    exact absurd h2 (by norm_num)
  have h := buildPromptText_truncation "p" .modify .direct_svg
    oversizedContext false oversizedSvg rfl hne
  have hlt : MAX_PROMPT_SVG_CHARS < oversizedSvg.length := by
    rw [hlen]; norm_num [MAX_PROMPT_SVG_CHARS]
  refine ⟨h.1, ?_⟩
  rw [(h.2.2 hlt).1, hlen, hdata, List.take_replicate]
  rw [String.ext_iff]
  simp only [String.data_append, List.append_assoc]
  norm_num [MAX_PROMPT_SVG_CHARS]
  decide

/-- C4. In `runQuery`'s response handling the repair model-call count is
at most one; it is zero on the text and structured branches; it is exactly
one precisely when the response is on the direct-markup branch, extraction
succeeded, and the first validation report had errors or a repair was
forced, and was marked repairable; and when the post-repair validation
still has errors the attempt terminates as a validation failure. -/
theorem runQuery_repair_at_most_once (extractSvg : String → Option String)
    (parseXml : String → Option XmlElem) (rm : ResponseMode)
    (initial repairResp : String) (diagramResult : Option DiagramIR)
    (forceRepair insertOk : Bool) :
    (runQueryResponse extractSvg parseXml rm initial repairResp diagramResult
      forceRepair insertOk).2 ≤ 1 ∧
    (rm ≠ .svg →
      (runQueryResponse extractSvg parseXml rm initial repairResp
        diagramResult forceRepair insertOk).2 = 0) ∧
    ((runQueryResponse extractSvg parseXml rm initial repairResp
        diagramResult forceRepair insertOk).2 = 1 ↔
      rm = .svg ∧ ∃ svg, extractSvg initial = some svg ∧
        ((forceRepair || !(validateSvg parseXml svg).errors.isEmpty) &&
          (validateSvg parseXml svg).repairable) = true) ∧
    (∀ repairedSvg,
      (runQueryResponse extractSvg parseXml rm initial repairResp
        diagramResult forceRepair insertOk).2 = 1 →
      extractSvg repairResp = some repairedSvg →
      (validateSvg parseXml repairedSvg).errors ≠ [] →
      (runQueryResponse extractSvg parseXml rm initial repairResp
        diagramResult forceRepair insertOk).1 = .failed .validation) := by
  cases rm with
  | text => simp [runQueryResponse]
  | ir_json =>
    cases diagramResult with
    | none => simp [runQueryResponse]
    | some diagram =>
      simp only [runQueryResponse]
      split <;> simp
      split <;> simp
  | svg =>
    cases hext : extractSvg initial with
    | none => simp [runQueryResponse, hext]
    | some svg =>
      by_cases hc : ((forceRepair ||
          !(validateSvg parseXml svg).errors.isEmpty) &&
          (validateSvg parseXml svg).repairable) = true
      · cases hext2 : extractSvg repairResp with
        | none =>
          simp only [runQueryResponse, hext, hext2, if_pos hc]
          refine ⟨by norm_num, by simp, ?_, ?_⟩
          · constructor
            · intro _; exact ⟨trivial, svg, rfl, hc⟩
            · intro _; trivial
          · intro repairedSvg _ hsome
            cases hsome
        | some repairedSvg =>
          by_cases herr : (validateSvg parseXml repairedSvg).errors.isEmpty
          · simp only [runQueryResponse, hext, hext2, if_pos hc, herr,
              Bool.not_true, if_neg]
            refine ⟨by norm_num, by simp, ?_, ?_⟩
            · constructor
              · intro _; exact ⟨trivial, svg, rfl, hc⟩
              · intro _; trivial
            · intro rsvg _ hsome hne
              cases hsome
              exact absurd (List.isEmpty_iff.mp herr) hne
          · have herr' : (!(validateSvg parseXml repairedSvg).errors.isEmpty)
                = true := by
              simp [herr]
            simp only [runQueryResponse, hext, hext2, if_pos hc, if_pos herr']
            refine ⟨by norm_num, by simp, ?_, ?_⟩
            · constructor
              · intro _; exact ⟨trivial, svg, rfl, hc⟩
              · intro _; trivial
            · intro rsvg _ _ _; trivial
      · simp only [runQueryResponse, hext, if_neg hc]
        constructor
        · split <;> norm_num
        · constructor
          · intro _; split <;> rfl
          · constructor
            · constructor
              · intro h
                exfalso
                revert h
                split <;> simp
              · rintro ⟨-, svg', hsvg', hguard⟩
                cases hsvg'
                exact absurd hguard hc
            · intro rsvg h
              exfalso
              revert h
              split <;> simp

/-- Witness for C4: with an identity extractor and a parser that always
fails (so every validation reports a repairable parse error), the repair
fires exactly once and the second failure terminates the attempt as a
validation failure. -/
theorem runQuery_repair_at_most_once_witness :
    (runQueryResponse some (fun _ => none) .svg "a" "b" none false true).2 =
      1 ∧
    (runQueryResponse some (fun _ => none) .svg "a" "b" none false true).1 =
      .failed .validation := by
  have h := runQuery_repair_at_most_once some (fun _ => none) .svg "a" "b"
    none false true
  have hguard : ((false || !(validateSvg (fun _ => none) "a").errors.isEmpty)
      && (validateSvg (fun _ => none) "a").repairable) = true := by decide
  have hcount := h.2.2.1.mpr ⟨rfl, "a", rfl, hguard⟩
  have hne : (validateSvg (fun _ => none) "b").errors ≠ [] := by decide
  exact ⟨hcount, h.2.2.2 "b" hcount rfl hne⟩

theorem not_mem_mapDelete (m : List String) (id : String) :
    id ∉ mapDelete m id := by
  simp [mapDelete]

theorem mem_mapSet (m : List String) (id : String) : id ∈ mapSet m id := by
  unfold mapSet
  split
  · assumption
  · exact List.mem_cons_self id m

/-- C9. Waiter-map hygiene of `App.tsx`: posting a request inserts its
entry; each of the three settlements (success reply, timeout expiry,
cancellation) removes the entry; settling a pending entry performs its
settlement exactly once; a reply, timeout, or cancellation for an id that
is not pending is a no-op on both maps (so a late reply for an
already-settled or unknown id changes nothing); and a second identical
settlement after the first is a no-op. -/
theorem waiterMaps_settle_exactly_once (s : WaiterState) (id : String) :
    ((uiStep s (.postContext id)).1.ctx = mapSet s.ctx id ∧
      id ∈ (uiStep s (.postContext id)).1.ctx ∧
      (uiStep s (.postInsert id)).1.ins = mapSet s.ins id ∧
      id ∈ (uiStep s (.postInsert id)).1.ins) ∧
    (id ∉ (uiStep s (.contextReady id)).1.ctx ∧
      id ∉ (uiStep s (.contextTimeout id)).1.ctx ∧
      id ∉ (uiStep s (.requestCanceled id)).1.ctx ∧
      id ∉ (uiStep s (.insertResult id)).1.ins ∧
      id ∉ (uiStep s (.insertTimeout id)).1.ins ∧
      id ∉ (uiStep s (.requestCanceled id)).1.ins) ∧
    ((id ∈ s.ctx → (uiStep s (.contextReady id)).2 = [.ctxResolved id]) ∧
      (id ∈ s.ins → (uiStep s (.insertResult id)).2 = [.insResolved id])) ∧
    ((id ∉ s.ctx → uiStep s (.contextReady id) = (s, [])) ∧
      (id ∉ s.ctx → uiStep s (.contextTimeout id) = (s, [])) ∧
      (id ∉ s.ins → uiStep s (.insertResult id) = (s, [])) ∧
      (id ∉ s.ins → uiStep s (.insertTimeout id) = (s, [])) ∧
      (id ∉ s.ctx → id ∉ s.ins → uiStep s (.requestCanceled id) = (s, []))) ∧
    (uiStep (uiStep s (.contextReady id)).1 (.contextReady id) =
        ((uiStep s (.contextReady id)).1, []) ∧
      uiStep (uiStep s (.insertResult id)).1 (.insertResult id) =
        ((uiStep s (.insertResult id)).1, [])) := by
  obtain ⟨ctxm, insm⟩ := s
  refine ⟨⟨rfl, mem_mapSet ctxm id, rfl, mem_mapSet insm id⟩,
    ⟨?_, ?_, ?_, ?_, ?_, ?_⟩, ⟨?_, ?_⟩, ⟨?_, ?_, ?_, ?_, ?_⟩, ⟨?_, ?_⟩⟩
  · by_cases hc : id ∈ ctxm <;> simp [uiStep, hc, not_mem_mapDelete]
  · by_cases hc : id ∈ ctxm <;> simp [uiStep, hc, not_mem_mapDelete]
  · by_cases hc : id ∈ ctxm <;> by_cases hi : id ∈ insm <;>
      simp [uiStep, hc, hi, not_mem_mapDelete]
  · by_cases hi : id ∈ insm <;> simp [uiStep, hi, not_mem_mapDelete]
  · by_cases hi : id ∈ insm <;> simp [uiStep, hi, not_mem_mapDelete]
  · by_cases hc : id ∈ ctxm <;> by_cases hi : id ∈ insm <;>
      simp [uiStep, hc, hi, not_mem_mapDelete]
  · intro h; simp [uiStep, h]
  · intro h; simp [uiStep, h]
  · intro h; simp [uiStep, h]
  · intro h; simp [uiStep, h]
  · intro h; simp [uiStep, h]
  · intro h; simp [uiStep, h]
  · intro h1 h2; simp [uiStep, h1, h2]
  · by_cases hc : id ∈ ctxm <;> simp [uiStep, hc, not_mem_mapDelete]
  · by_cases hi : id ∈ insm <;> simp [uiStep, hi, not_mem_mapDelete]

/-- Witness for C9: with "a" pending as a context waiter, a late reply for
the unknown id "b" is a no-op, while the reply for "a" removes the entry
and resolves it exactly once. -/
theorem waiterMaps_settle_exactly_once_witness :
    uiStep ⟨["a"], []⟩ (.contextReady "b") = (⟨["a"], []⟩, []) ∧
    "a" ∉ (uiStep ⟨["a"], []⟩ (.contextReady "a")).1.ctx ∧
    (uiStep ⟨["a"], []⟩ (.contextReady "a")).2 = [.ctxResolved "a"] := by
  have hb := waiterMaps_settle_exactly_once ⟨["a"], []⟩ "b"
  have ha := waiterMaps_settle_exactly_once ⟨["a"], []⟩ "a"
  exact ⟨hb.2.2.2.1.1 (by decide), ha.2.1.1, ha.2.2.1.1 (by decide)⟩

theorem attrErrorsOfAttr_nil_of (n v : String) (h : safeNameB n = true) :
    attrErrorsOfAttr ⟨n, v⟩ = [] := by
  simp only [safeNameB, Bool.not_eq_true', Bool.or_eq_false_iff] at h
  obtain ⟨⟨h1, h2⟩, h3⟩ := h
  simp [attrErrorsOfAttr, h1, h2, h3]

theorem attrsClean_of_names (l : List XmlAttr)
    (h : l.all (fun a => safeNameB a.name) = true) : attrsClean l := by
  intro a ha
  exact attrErrorsOfAttr_nil_of a.name a.value (List.all_eq_true.mp h a ha)

theorem renderedTagOk_of_leaf (t : String) (h : leafTagOk t) :
    renderedTagOk t := by
  simp only [leafTagOk, List.mem_cons, List.not_mem_nil, or_false] at h
  rcases h with rfl | rfl | rfl | rfl | rfl <;> simp [renderedTagOk]

theorem nodeElems_props (stroke fill textColor : String)
    (strokeWidth fontSize : JsNum) (node : DiagramNode) :
    ∀ e ∈ nodeElems stroke fill textColor strokeWidth fontSize node,
      e.children = [] ∧ leafTagOk e.tag ∧ attrsClean e.attrs := by
  intro e he
  unfold nodeElems at he
  cases hk : node.kind <;> rw [hk] at he <;> simp only [List.mem_append,
    List.mem_singleton, List.mem_cons, List.not_mem_nil, or_false,
    List.nil_append, false_or] at he <;>
    rcases he with rfl | rfl <;>
    exact ⟨rfl, by simp [leafTagOk, XmlElem.tag], attrsClean_of_names _ (by rfl)⟩

theorem edgeElems_props (nodes : List DiagramNode) (stroke textColor : String)
    (strokeWidth fontSize : JsNum) (edge : DiagramEdge) :
    ∀ e ∈ edgeElems nodes stroke textColor strokeWidth fontSize edge,
      e.children = [] ∧ leafTagOk e.tag ∧ attrsClean e.attrs := by
  intro e he
  unfold edgeElems at he
  cases hf : nodesMapGet nodes edge.fromId with
  | none => rw [hf] at he; cases he
  | some fromNode =>
    cases ht : nodesMapGet nodes edge.toId with
    | none => rw [hf, ht] at he; cases he
    | some toNode =>
      rw [hf, ht] at he
      dsimp only at he
      rcases List.mem_append.mp he with h | h
      · rw [List.mem_singleton] at h
        subst h
        exact ⟨rfl, by simp [leafTagOk, XmlElem.tag],
          attrsClean_of_names _ (by rfl)⟩
      · rcases hl : edge.label with _ | l
        · rw [hl] at h; dsimp only at h; cases h
        · rw [hl] at h
          dsimp only at h
          by_cases hempty : l = ""
          · rw [if_pos hempty] at h; cases h
          · rw [if_neg hempty, List.mem_singleton] at h
            subst h
            exact ⟨rfl, by simp [leafTagOk, XmlElem.tag],
              attrsClean_of_names _ (by rfl)⟩

theorem allElementsList_eq_of_leaves (l : List XmlElem)
    (h : ∀ e ∈ l, e.children = []) : allElementsList l = l := by
  induction l with
  | nil => rfl
  | cons e es ih =>
    obtain ⟨t, a, cs⟩ := e
    have hcs : cs = [] := h _ (List.mem_cons_self _ _)
    subst hcs
    rw [allElementsList, allElements, allElementsList]
    simp [ih (fun x hx => h x (List.mem_cons_of_mem _ hx))]

/-- C10 (amended). For every diagram description passing
`validateDiagramIR`, provided the XML parser parses the sanitized rendered
markup into the renderer's own element tree (`docOfDiagram` — which a
standards-compliant parser does unless the unescaped style-override
strings or labels with XML-invalid characters corrupt the markup, see the
counterexample), the sanitized rendered string is non-empty and the
rendered element count is within the validator's ceiling, re-validating
the rendered markup reports zero errors. -/
theorem render_then_validate_amended (d : DiagramIR)
    (parseXml : String → Option XmlElem)
    (_hval : (validateDiagramIR d).errors = [])
    (hparse : parseXml (sanitizeSvg (renderDiagramIrToSvg d)) =
      some (docOfDiagram d))
    (hne : sanitizeSvg (renderDiagramIrToSvg d) ≠ "")
    (hcount : (allElements (docOfDiagram d)).length ≤ MAX_SVG_NODE_COUNT) :
    (validateSvg parseXml (renderDiagramIrToSvg d)).errors = [] := by
  set stroke := orDefStr (d.styles.bind DiagramStyles.stroke) "#1f2937"
    with hst
  set fill := orDefStr (d.styles.bind DiagramStyles.fill) "#ffffff" with hfi
  set textColor := orDefStr (d.styles.bind DiagramStyles.textColor) "#111827"
    with htc
  set strokeWidth := orDefNum (d.styles.bind DiagramStyles.strokeWidth) 2
    with hsw
  set fontSize := orDefNum (d.styles.bind DiagramStyles.fontSize) 14 with hfs
  set padding := orDefNum d.canvas.padding 24 with hpad
  set gkids :=
    d.edges.flatMap (edgeElems d.nodes stroke textColor strokeWidth fontSize)
      ++ d.nodes.flatMap (nodeElems stroke fill textColor strokeWidth fontSize)
    with hgk
  have hdoc : docOfDiagram d =
      XmlElem.mk "svg" (svgRootAttrs d.canvas)
        [XmlElem.mk "rect" (bgRectAttrs d.canvas) [],
         XmlElem.mk "g" (gAttrs padding) gkids] := rfl
  have hleaves : ∀ e ∈ gkids,
      e.children = [] ∧ leafTagOk e.tag ∧ attrsClean e.attrs := by
    intro e he
    rw [hgk] at he
    rcases List.mem_append.mp he with h | h
    · obtain ⟨edge, -, hmem⟩ := List.mem_flatMap.mp h
      exact edgeElems_props d.nodes stroke textColor strokeWidth fontSize edge
        e hmem
    · obtain ⟨node, -, hmem⟩ := List.mem_flatMap.mp h
      exact nodeElems_props stroke fill textColor strokeWidth fontSize node
        e hmem
  have hkidsflat : allElementsList gkids = gkids :=
    allElementsList_eq_of_leaves _ (fun e he => (hleaves e he).1)
  have hall : allElements (docOfDiagram d) =
      docOfDiagram d :: XmlElem.mk "rect" (bgRectAttrs d.canvas) [] ::
        XmlElem.mk "g" (gAttrs padding) gkids :: gkids := by
    conv_lhs => rw [hdoc]
    conv_rhs => rw [hdoc]
    simp [allElements, allElementsList, hkidsflat]
  have htags : ∀ e ∈ allElements (docOfDiagram d), renderedTagOk e.tag := by
    rw [hall]
    intro e he
    rcases List.mem_cons.mp he with rfl | he
    · rw [hdoc]; simp [renderedTagOk, XmlElem.tag]
    rcases List.mem_cons.mp he with rfl | he
    · simp [renderedTagOk, XmlElem.tag]
    rcases List.mem_cons.mp he with rfl | he
    · simp [renderedTagOk, XmlElem.tag]
    exact renderedTagOk_of_leaf _ (hleaves e he).2.1
  have hfilter : disallowedTags.filter
      (fun tag => (allElements (docOfDiagram d)).any (fun e => e.tag = tag))
      = [] := by
    rw [List.filter_eq_nil_iff]
    intro t ht hany
    rw [List.any_eq_true] at hany
    obtain ⟨e, he, heq⟩ := hany
    have h3 := htags e he
    have heq' : e.tag = t := of_decide_eq_true heq
    rw [heq'] at h3
    fin_cases ht <;> simp [renderedTagOk] at h3
  have hattrs : attrErrors (allElements (docOfDiagram d)) = [] := by
    rw [hall]
    unfold attrErrors
    rw [List.flatMap_eq_nil_iff]
    intro e he
    rw [List.flatMap_eq_nil_iff]
    rcases List.mem_cons.mp he with rfl | he
    · rw [hdoc]; exact attrsClean_of_names _ (by rfl)
    rcases List.mem_cons.mp he with rfl | he
    · exact attrsClean_of_names _ (by rfl)
    rcases List.mem_cons.mp he with rfl | he
    · exact attrsClean_of_names _ (by rfl)
    exact (hleaves e he).2.2
  have htag : strLower (docOfDiagram d).tag = "svg" := rfl
  have hvbeq : getAttrD (docOfDiagram d) "viewBox" =
      "0 0 " ++ jsNumStr d.canvas.width ++ " " ++ jsNumStr d.canvas.height :=
    rfl
  have hvb : getAttrD (docOfDiagram d) "viewBox" ≠ "" := by
    rw [hvbeq]
    intro h
    have h2 := congrArg String.data h
    rw [show ("" : String).data = [] from rfl] at h2
    simp only [String.data_append, List.append_eq_nil] at h2
    exact absurd h2.1.1.1 (by decide)
  have hcount' :
      ¬(MAX_SVG_NODE_COUNT < (allElements (docOfDiagram d)).length) :=
    Nat.not_lt.mpr hcount
  simp [validateSvg, hparse, hne, htag, hvb, hfilter, hcount', hattrs]

/-- Counterexample for C10 as stated: `injectionDiagram` passes the
structured-diagram validator (style overrides are never inspected), yet
the markup validator rejects its rendered output, because the unescaped
stroke style smuggles an `onclick` attribute into the markup. The parse
oracle returns exactly the element tree a standards-compliant XML parser
produces for that rendered string. -/
theorem render_then_validate_counterexample :
    (validateDiagramIR injectionDiagram).errors = [] ∧
    (validateSvg injectionParse
      (renderDiagramIrToSvg injectionDiagram)).errors =
      ["Event attribute \"onclick\" is not allowed."] := by
  decide

/-- Witness for the amended C10 on a concrete well-behaved diagram. -/
theorem render_then_validate_amended_witness :
    (validateSvg renderDemoParse
      (renderDiagramIrToSvg renderDemoDiagram)).errors = [] := by
  apply render_then_validate_amended
  · decide
  · show (if sanitizeSvg (renderDiagramIrToSvg renderDemoDiagram) =
        sanitizeSvg (renderDiagramIrToSvg renderDemoDiagram) then
        some (docOfDiagram renderDemoDiagram) else none) =
      some (docOfDiagram renderDemoDiagram)
    rw [if_pos rfl]
  · decide
  · decide
